import Mathlib

/-!
# Verification of the VoTT rect-selection state machine and CSV export

Shallow embedding of:
* `RectSelector` (Selection/Selectors/RectSelector) — pointer/keyboard driven
  state machine that draws and commits rectangular regions;
* `CsvExportProvider.export` (providers/export/csv.ts) — downstream validation
  and CSV record generation.

Coordinates are JavaScript numbers; the operations the code applies to them
(min, max, abs, add, subtract, compare) are exact on integer values, and
every coordinate appearing in the specification is an integer pixel value,
so coordinates are embedded as `ℤ`.  Host-environment effects (pointer
capture, callbacks)
are recorded as an output trace.  Code of the repository that is not in
the sample (the `Selector` base class, `CrossElement`, `RegionData`) is
modelled from the specification; each such definition is marked.
-/

namespace VoTT

/-- A 2D point, `Core/Point2D`: `{x: float, y: float}`. -/
structure Point2D where
  x : ℤ
  y : ℤ
deriving DecidableEq, Repr

/-- A rectangle size, `Core/Rect`: `{width: float, height: float}`. -/
structure Rect where
  width : ℤ
  height : ℤ
deriving DecidableEq, Repr

/-- A RECT-kind region description: `{x, y, width, height}` as produced at
selection-commit time. -/
structure RegionData where
  x : ℤ
  y : ℤ
  width : ℤ
  height : ℤ
deriving DecidableEq, Repr

/-- Modelled from the spec: `RegionData.BuildRectRegionData(x, y, w, h)`
(Core/RegionData is not in the sample) packages the given coordinates into a
RECT-kind `RegionData` record.  The callers in `RectSelector` always pass the
min-corner and componentwise absolute difference. -/
def RegionData.buildRectRegionData (x y w h : ℤ) : RegionData :=
  ⟨x, y, w, h⟩

/-- The commit computation of `RectSelector.onPointerUp` (lines 210-215 and
223-228): min-corner of the two crosses and componentwise absolute difference
as the size, passed to `RegionData.BuildRectRegionData`. -/
def commitRegion (pa pb : Point2D) : RegionData :=
  RegionData.buildRectRegionData (min pa.x pb.x) (min pa.y pb.y)
    |pa.x - pb.x| |pa.y - pb.y|

/-- Modelled from the spec: the `CrossElement` self-clamps any point it is
moved to into the bound rect (§4.4 failure semantics: "the Selector assumes
crosses self-clamp to the bound rect"). -/
def boundToRect (bound : Rect) (p : Point2D) : Point2D :=
  ⟨max 0 (min p.x bound.width), max 0 (min p.y bound.height)⟩

/-- Modelled from the spec: the square constraint (§4.4) forces the free
corner so that width = height, using the larger of |dx|, |dy| as the square
side, signed by the cursor quadrant relative to the reference cross. -/
def squareConstrain (ref p : Point2D) : Point2D :=
  let dx := p.x - ref.x
  let dy := p.y - ref.y
  let side := max |dx| |dy|
  ⟨ref.x + (if dx < 0 then -side else side),
   ref.y + (if dy < 0 then -side else side)⟩

/-- A cross visual element: position plus visibility. -/
structure CrossElement where
  pos : Point2D
  visible : Bool
deriving DecidableEq, Repr

/-- The selection-box visual element: position, size, visibility. -/
structure RectElement where
  pos : Point2D
  width : ℤ
  height : ℤ
  visible : Bool
deriving DecidableEq, Repr

/-- Modelled from the spec: `Selector.moveCross` (base class, not in the
sample) moves the given cross to the point, square-constrained relative to
`refCross` when `square` is set, clamped to the bound rect by the cross
element. -/
def moveCross (bound : Rect) (cross : CrossElement) (pointTo : Point2D)
    (square : Bool := false) (refCross : Option CrossElement := none) :
    CrossElement :=
  let target :=
    match square, refCross with
    | true, some ref => squareConstrain ref.pos pointTo
    | _, _ => pointTo
  { cross with pos := boundToRect bound target }

/-- Embeds `RectSelector.moveSelectionBox` (lines 134-142): move the box to the
componentwise minimum of the two corners and resize it to the componentwise
absolute difference. -/
def moveSelectionBox (box : RectElement) (pa pb : Point2D) : RectElement :=
  let x := if pa.x < pb.x then pa.x else pb.x
  let y := if pa.y < pb.y then pa.y else pb.y
  let w := |pa.x - pb.x|
  let h := |pa.y - pb.y|
  { box with pos := ⟨x, y⟩, width := w, height := h }

/-- Selection mode flag (`SelectionModificator` enum). -/
inductive SelectionModificator where
  | RECT
  | SQUARE
deriving DecidableEq, Repr

/-- The callbacks object: the code guards each invocation with
`typeof this.callbacks.onX === "function"`, so the model records which hooks
are present. -/
structure ISelectorCallbacks where
  hasOnSelectionBegin : Bool
  hasOnSelectionEnd : Bool
deriving DecidableEq, Repr

/-- Observable effects leaving the selector: callback invocations and
pointer-capture acquire/release on the host element. -/
inductive SelectorOutput where
  | onSelectionBegin
  | onSelectionEnd (region : RegionData)
  | setPointerCapture
  | releasePointerCapture
deriving DecidableEq, Repr

/-- The state of a `RectSelector`: the owned visual elements, the ephemeral
interaction flags, and the `Selector` base visibility of the whole node. -/
structure RectSelectorState where
  boundRect : Rect
  crossA : CrossElement
  crossB : CrossElement
  selectionBox : RectElement
  maskVisible : Bool
  selectorVisible : Bool
  capturingState : Bool
  isTwoPoints : Bool
  selectionModificator : SelectionModificator
deriving DecidableEq, Repr

namespace RectSelectorState

/-- Modelled from the spec: `Selector.hide` (base class, not in the sample)
hides the selector node; §3: the ephemeral selector state is "reset on
mode-exit or external hide()", so the capturing flag is cleared. -/
def selectorBaseHide (s : RectSelectorState) : RectSelectorState :=
  { s with selectorVisible := false, capturingState := false }

/-- Modelled from the spec: `Selector.show` (base class, not in the sample)
shows the selector node again. -/
def selectorBaseShow (s : RectSelectorState) : RectSelectorState :=
  { s with selectorVisible := true }

/-- Embeds `RectSelector.hide` (lines 85-88): `super.hide()` then
`hideAll([crossA, crossB, mask])`. -/
def hide (s : RectSelectorState) : RectSelectorState :=
  let s := s.selectorBaseHide
  { s with crossA := { s.crossA with visible := false },
           crossB := { s.crossB with visible := false },
           maskVisible := false }

/-- Embeds `RectSelector.show` (lines 93-96): `super.show()` then `crossA.show()`.
(`show` is a Lean keyword, hence the longer name.) -/
def showSelector (s : RectSelectorState) : RectSelectorState :=
  let s := s.selectorBaseShow
  { s with crossA := { s.crossA with visible := true } }

/-- Effective visibility: a visual element is on screen only when its own
flag is set and the selector node (which owns all of the visual elements,
§3) is itself visible. -/
def crossAOnScreen (s : RectSelectorState) : Bool :=
  s.selectorVisible && s.crossA.visible

/-- Effective visibility of crossB. -/
def crossBOnScreen (s : RectSelectorState) : Bool :=
  s.selectorVisible && s.crossB.visible

/-- Effective visibility of the selection box. -/
def selectionBoxOnScreen (s : RectSelectorState) : Bool :=
  s.selectorVisible && s.selectionBox.visible

/-- Effective visibility of the mask. -/
def maskOnScreen (s : RectSelectorState) : Bool :=
  s.selectorVisible && s.maskVisible

/-- True when some visual element of the selector is on screen. -/
def anyVisualOnScreen (s : RectSelectorState) : Bool :=
  s.crossAOnScreen || s.crossBOnScreen || s.selectionBoxOnScreen ||
    s.maskOnScreen

end RectSelectorState

open RectSelectorState

/-- Embeds `RectSelector.onPointerDown` (lines 177-193).  The handler ignores the
event coordinates; in one-point mode it starts capturing, acquires pointer
capture, snaps crossB onto crossA, zeroes the selection box at crossA, shows
mask/crossB/selectionBox and invokes `onSelectionBegin`; in two-point mode it
does nothing. -/
def onPointerDown (cb : ISelectorCallbacks) (s : RectSelectorState) :
    RectSelectorState × List SelectorOutput :=
  if !s.isTwoPoints then
    let crossB := moveCross s.boundRect s.crossB s.crossA.pos
    let selectionBox := moveSelectionBox s.selectionBox s.crossA.pos crossB.pos
    let s1 : RectSelectorState :=
      { s with capturingState := true,
               crossB := { crossB with visible := true },
               selectionBox := { selectionBox with visible := true },
               maskVisible := true }
    (s1, [SelectorOutput.setPointerCapture] ++
      (if cb.hasOnSelectionBegin then [SelectorOutput.onSelectionBegin] else []))
  else
    (s, [])

/-- Embeds `RectSelector.onPointerUp` (lines 199-244).  One-point mode: stop
capturing, release pointer capture, hide crossB and mask, commit the region
from crossA/crossB.  Two-point capturing: commit likewise, then move both
crosses to the pointer.  Two-point not capturing: arm — start capturing, move
crossB to the pointer, update and show everything, invoke
`onSelectionBegin`. -/
def onPointerUp (cb : ISelectorCallbacks) (s : RectSelectorState)
    (p : Point2D) : RectSelectorState × List SelectorOutput :=
  if !s.isTwoPoints then
    let s1 : RectSelectorState :=
      { s with capturingState := false,
               crossB := { s.crossB with visible := false },
               maskVisible := false }
    (s1, [SelectorOutput.releasePointerCapture] ++
      (if cb.hasOnSelectionEnd then
        [SelectorOutput.onSelectionEnd (commitRegion s.crossA.pos s.crossB.pos)]
      else []))
  else if s.capturingState then
    let s1 : RectSelectorState :=
      { s with capturingState := false,
               crossB := { s.crossB with visible := false },
               maskVisible := false }
    let outs :=
      if cb.hasOnSelectionEnd then
        [SelectorOutput.onSelectionEnd (commitRegion s.crossA.pos s.crossB.pos)]
      else []
    let s2 : RectSelectorState :=
      { s1 with crossA := moveCross s1.boundRect s1.crossA p,
                crossB := moveCross s1.boundRect s1.crossB p }
    (s2, outs)
  else
    let crossB := moveCross s.boundRect s.crossB p
    let selectionBox := moveSelectionBox s.selectionBox s.crossA.pos crossB.pos
    let s1 : RectSelectorState :=
      { s with capturingState := true,
               crossA := { s.crossA with visible := true },
               crossB := { crossB with visible := true },
               selectionBox := { selectionBox with visible := true },
               maskVisible := true }
    (s1, if cb.hasOnSelectionBegin then [SelectorOutput.onSelectionBegin] else [])

/-- Embeds `RectSelector.onPointerMove` (lines 250-278).  Shows crossA; while
capturing, crossB tracks the pointer (square-constrained when the modificator
is SQUARE) and the selection box is recomputed; while not capturing, crossA
(and in two-point mode also crossB) tracks the pointer. -/
def onPointerMove (s : RectSelectorState) (p : Point2D) :
    RectSelectorState × List SelectorOutput :=
  let s : RectSelectorState := { s with crossA := { s.crossA with visible := true } }
  if !s.isTwoPoints then
    if s.capturingState then
      let crossB := moveCross s.boundRect s.crossB p
        (s.selectionModificator = SelectionModificator.SQUARE) (some s.crossA)
      let selectionBox := moveSelectionBox s.selectionBox s.crossA.pos crossB.pos
      ({ s with crossB := crossB, selectionBox := selectionBox }, [])
    else
      ({ s with crossA := moveCross s.boundRect s.crossA p }, [])
  else
    if s.capturingState then
      let crossB := moveCross s.boundRect s.crossB p
        (s.selectionModificator = SelectionModificator.SQUARE) (some s.crossA)
      let selectionBox := moveSelectionBox s.selectionBox s.crossA.pos crossB.pos
      ({ s with crossB := crossB, selectionBox := selectionBox }, [])
    else
      ({ s with crossA := moveCross s.boundRect s.crossA p,
                crossB := moveCross s.boundRect s.crossB p }, [])

/-- Embeds `RectSelector.onPointerEnter` (lines 148-152): show crossA. -/
def onPointerEnter (s : RectSelectorState) :
    RectSelectorState × List SelectorOutput :=
  ({ s with crossA := { s.crossA with visible := true } }, [])

/-- Embeds `RectSelector.onPointerLeave` (lines 158-171): while idle hide
crossA/crossB/selectionBox; while capturing in two-point mode crossB keeps
tracking the last point. -/
def onPointerLeave (s : RectSelectorState) (p : Point2D) :
    RectSelectorState × List SelectorOutput :=
  if !s.capturingState then
    ({ s with crossA := { s.crossA with visible := false },
              crossB := { s.crossB with visible := false },
              selectionBox := { s.selectionBox with visible := false } }, [])
  else if s.isTwoPoints && s.capturingState then
    let crossB := moveCross s.boundRect s.crossB p
    let selectionBox := moveSelectionBox s.selectionBox s.crossA.pos crossB.pos
    ({ s with crossB := crossB, selectionBox := selectionBox }, [])
  else
    (s, [])

/-- Embeds `RectSelector.onKeyDown` (lines 284-293): shift enters SQUARE mode;
ctrl (only while not capturing) enters two-point mode. -/
def onKeyDown (s : RectSelectorState) (shiftKey ctrlKey : Bool) :
    RectSelectorState × List SelectorOutput :=
  let s : RectSelectorState :=
    if shiftKey then { s with selectionModificator := SelectionModificator.SQUARE }
    else s
  if ctrlKey && !s.capturingState then
    ({ s with isTwoPoints := true }, [])
  else
    (s, [])

/-- Embeds `RectSelector.onKeyUp` (lines 299-312): releasing shift exits SQUARE
mode; releasing ctrl while in two-point mode exits it, clears the capturing
flag, moves crossA onto crossB, and hides crossB, the selection box and the
mask. -/
def onKeyUp (s : RectSelectorState) (shiftKey ctrlKey : Bool) :
    RectSelectorState × List SelectorOutput :=
  let s : RectSelectorState :=
    if !shiftKey then { s with selectionModificator := SelectionModificator.RECT }
    else s
  if !ctrlKey && s.isTwoPoints then
    ({ s with isTwoPoints := false,
              capturingState := false,
              crossA := moveCross s.boundRect s.crossA s.crossB.pos,
              crossB := { s.crossB with visible := false },
              selectionBox := { s.selectionBox with visible := false },
              maskVisible := false }, [])
  else
    (s, [])

/-- The events the selector subscribes to (lines 115-123). -/
inductive SelectorEvent where
  | pointerEnter
  | pointerLeave (p : Point2D)
  | pointerDown (p : Point2D)
  | pointerUp (p : Point2D)
  | pointerMove (p : Point2D)
  | keyDown (shiftKey ctrlKey : Bool)
  | keyUp (shiftKey ctrlKey : Bool)
deriving DecidableEq, Repr

/-- Dispatch one event to its handler.  (The `pointerdown` handler reads only
the pointer id from the event, so the point is dropped there.) -/
def step (cb : ISelectorCallbacks) (s : RectSelectorState) :
    SelectorEvent → RectSelectorState × List SelectorOutput
  | SelectorEvent.pointerEnter => onPointerEnter s
  | SelectorEvent.pointerLeave p => onPointerLeave s p
  | SelectorEvent.pointerDown _ => onPointerDown cb s
  | SelectorEvent.pointerUp p => onPointerUp cb s p
  | SelectorEvent.pointerMove p => onPointerMove s p
  | SelectorEvent.keyDown sh c => onKeyDown s sh c
  | SelectorEvent.keyUp sh c => onKeyUp s sh c

/-- Run a sequence of events, concatenating the emitted outputs in order
(§5: events are processed in delivery order). -/
def run (cb : ISelectorCallbacks) :
    RectSelectorState → List SelectorEvent → RectSelectorState × List SelectorOutput
  | s, [] => (s, [])
  | s, e :: es =>
    let r := step cb s e
    let r2 := run cb r.1 es
    (r2.1, r.2 ++ r2.2)

/-- The regions carried by the `onSelectionEnd` invocations of a trace. -/
def committedRegions (outs : List SelectorOutput) : List RegionData :=
  outs.filterMap fun o =>
    match o with
    | SelectorOutput.onSelectionEnd r => some r
    | _ => none

/-! ## CSV export (providers/export/csv.ts) -/

namespace Csv

/-- A region bounding box: `{left, top, width, height}`. -/
structure BoundingBox where
  left : ℤ
  top : ℤ
  width : ℤ
  height : ℤ
deriving DecidableEq, Repr

/-- A pixel size `{width, height}`. -/
structure Size where
  width : ℤ
  height : ℤ
deriving DecidableEq, Repr

/-- A tagged region of an asset. -/
structure Region where
  tags : List String
  boundingBox : BoundingBox
deriving DecidableEq, Repr

/-- Asset visit state (`AssetState`). -/
inductive AssetState where
  | NotVisited
  | Visited
  | Tagged
deriving DecidableEq, Repr

/-- An asset: name, recorded size and state. -/
structure Asset where
  name : String
  size : Size
  state : AssetState
deriving DecidableEq, Repr

/-- Asset metadata: the asset and its regions. -/
structure AssetMetadata where
  asset : Asset
  regions : List Region
deriving DecidableEq, Repr

/-- One CSV record: `image,xmin,ymin,xmax,ymax,label`. -/
structure CsvRecord where
  image : String
  xmin : ℤ
  ymin : ℤ
  xmax : ℤ
  ymax : ℤ
  label : String
deriving DecidableEq, Repr

/-- The out-of-bounds scan of `CsvExportProvider.export` (lines 47-60): for
each region, *for each of its tags*, compare `left + width` and
`top + height` against the measured dimensions; the first hit sets
`skipAsset` and breaks out of both loops.  A region with no tags is never
tested. -/
def skipAssetCheck (props : Size) (regions : List Region) : Bool :=
  regions.any fun reg =>
    reg.tags.any fun _ =>
      decide (reg.boundingBox.left + reg.boundingBox.width > props.width) ||
        decide (reg.boundingBox.top + reg.boundingBox.height > props.height)

/-- The JavaScript loop `for (const ar of regions) { regions.pop() }`
(lines 63 and 76): the array iterator advances an index while `pop`
shrinks the live array, so the loop stops once the index reaches the
shrunken length.  Fuel (the initial length) bounds the iteration count;
the guard `i < l.length` is what actually stops the loop, exactly as in
the array iterator protocol. -/
def popWhileIterating : Nat → List Region → Nat → List Region
  | 0, l, _ => l
  | fuel + 1, l, i => if i < l.length then popWhileIterating fuel l.dropLast (i + 1) else l

/-- Embeds `for (const ar of assetMetadata.regions) { assetMetadata.regions.pop() }`. -/
def clearRegionsLoop (regions : List Region) : List Region :=
  popWhileIterating regions.length regions 0

/-- One `dataItem` (lines 100-107): `xmax = xmin + width`,
`ymax = ymin + height`. -/
def mkDataItem (name : String) (reg : Region) (tag : String) : CsvRecord :=
  { image := name,
    xmin := reg.boundingBox.left,
    ymin := reg.boundingBox.top,
    xmax := reg.boundingBox.left + reg.boundingBox.width,
    ymax := reg.boundingBox.top + reg.boundingBox.height,
    label := tag }

/-- The record push of lines 98-111: one record per region-tag pair, in
order. -/
def assetDataItems (md : AssetMetadata) : List CsvRecord :=
  md.regions.flatMap fun reg => reg.tags.map (mkDataItem md.asset.name reg)

/-- The per-asset body of the export loop (lines 41-112).  `props` is the
measured size returned by `HtmlFileReader.readAssetAttributes`.  Returns the
records contributed by the asset and the asset metadata as left behind (the
skip branches mutate it and save it).  The binary image write and the toast
notifications carry no data relevant here. -/
def processAsset (md : AssetMetadata) (props : Size) :
    List CsvRecord × AssetMetadata :=
  if skipAssetCheck props md.regions then
    ([], { md with regions := clearRegionsLoop md.regions,
                   asset := { md.asset with state := AssetState.NotVisited } })
  else if md.asset.size.width ≠ props.width ∨ md.asset.size.height ≠ props.height then
    ([], { md with regions := clearRegionsLoop md.regions,
                   asset := { md.asset with state := AssetState.NotVisited } })
  else
    (assetDataItems md, md)

/-- The whole export loop over the project's assets: concatenated records
and the per-asset resulting metadata. -/
def exportProject (assets : List (AssetMetadata × Size)) :
    List CsvRecord × List AssetMetadata :=
  (assets.flatMap fun a => (processAsset a.1 a.2).1,
   assets.map fun a => (processAsset a.1 a.2).2)

end Csv

/-! ## Concrete fixtures -/

/-- A callbacks object with both hooks installed. -/
def cbBoth : ISelectorCallbacks := ⟨true, true⟩

/-- A selector state over a 100×100 bound rect with the crosses at the given
points, in the given capturing/two-point flags, RECT modificator, shown. -/
def mkDemoState (a b : Point2D) (cap twoP : Bool) : RectSelectorState :=
  { boundRect := ⟨100, 100⟩,
    crossA := ⟨a, true⟩,
    crossB := ⟨b, cap⟩,
    selectionBox := ⟨⟨0, 0⟩, 0, 0, cap⟩,
    maskVisible := cap,
    selectorVisible := true,
    capturingState := cap,
    isTwoPoints := twoP,
    selectionModificator := SelectionModificator.RECT }

/-- A tagged region whose box (left 5, width 10) exceeds a 10-pixel-wide
asset. -/
def regOob : Csv.Region := ⟨["t"], ⟨5, 0, 10, 5⟩⟩

/-- A tagged region fully inside a 10×10 asset. -/
def regIn : Csv.Region := ⟨["t"], ⟨0, 0, 5, 5⟩⟩

/-- An asset of recorded size 10×10 with two tagged regions, the first of
which is out of bounds. -/
def mdOob : Csv.AssetMetadata :=
  ⟨⟨"a", ⟨10, 10⟩, Csv.AssetState.Tagged⟩, [regOob, regIn]⟩

/-- A region with no tags whose box grossly exceeds a 10×10 asset. -/
def regNoTags : Csv.Region := ⟨[], ⟨0, 0, 500, 500⟩⟩

/-- An asset of recorded size 10×10 whose only regions have empty tag
lists. -/
def mdNoTags : Csv.AssetMetadata :=
  ⟨⟨"b", ⟨10, 10⟩, Csv.AssetState.Tagged⟩, [regNoTags, regNoTags]⟩

/-! ## Helper lemmas -/

/-- A point already inside the bound rect is unchanged by the cross
element's clamping. -/
theorem boundToRect_of_mem (bound : Rect) (p : Point2D)
    (hx0 : 0 ≤ p.x) (hxw : p.x ≤ bound.width)
    (hy0 : 0 ≤ p.y) (hyh : p.y ≤ bound.height) :
    boundToRect bound p = p := by
  simp [boundToRect, min_eq_left hxw, min_eq_left hyh,
    max_eq_right hx0, max_eq_right hy0]

/-- Running a concatenation of event lists runs them in sequence and
concatenates the outputs. -/
theorem run_append (cb : ISelectorCallbacks) (s : RectSelectorState)
    (l1 l2 : List SelectorEvent) :
    run cb s (l1 ++ l2) =
      ((run cb (run cb s l1).1 l2).1,
       (run cb s l1).2 ++ (run cb (run cb s l1).1 l2).2) := by
  induction l1 generalizing s with
  | nil => simp [run]
  | cons e es ih => simp [run, ih]

/-- The pointer-move handler emits no outputs. -/
theorem onPointerMove_snd (s : RectSelectorState) (p : Point2D) :
    (onPointerMove s p).2 = [] := by
  simp only [onPointerMove]
  split <;> split <;> rfl

/-- The pointer-move handler never changes the two-point flag. -/
theorem onPointerMove_fst_isTwoPoints (s : RectSelectorState) (p : Point2D) :
    (onPointerMove s p).1.isTwoPoints = s.isTwoPoints := by
  simp only [onPointerMove]
  split <;> split <;> rfl

/-- A run of pointer-move events emits no outputs and preserves the
two-point flag. -/
theorem run_moves_trace (cb : ISelectorCallbacks) (s : RectSelectorState)
    (moves : List Point2D) :
    (run cb s (moves.map SelectorEvent.pointerMove)).2 = [] ∧
    (run cb s (moves.map SelectorEvent.pointerMove)).1.isTwoPoints =
      s.isTwoPoints := by
  induction moves generalizing s with
  | nil => simp [run]
  | cons q qs ih =>
    have h1 : step cb s (SelectorEvent.pointerMove q) = onPointerMove s q := rfl
    simp [run, h1, onPointerMove_snd, (ih (onPointerMove s q).1).1,
      (ih (onPointerMove s q).1).2, onPointerMove_fst_isTwoPoints]

/-- The pointer-down handler never changes the two-point flag. -/
theorem onPointerDown_fst_isTwoPoints (cb : ISelectorCallbacks)
    (s : RectSelectorState) :
    (onPointerDown cb s).1.isTwoPoints = s.isTwoPoints := by
  simp only [onPointerDown]
  split <;> rfl

/-! ## Claims -/

/-- C2: the committed rect region built from two corner points is the same
for either corner order; its top-left is the componentwise minimum and its
size the componentwise absolute difference, hence non-negative; equal
corners give zero width and height. -/
theorem commitRegion_corner_swap (p1 p2 : Point2D) :
    commitRegion p1 p2 = commitRegion p2 p1 ∧
    (commitRegion p1 p2).x = min p1.x p2.x ∧
    (commitRegion p1 p2).y = min p1.y p2.y ∧
    (commitRegion p1 p2).width = |p1.x - p2.x| ∧
    (commitRegion p1 p2).height = |p1.y - p2.y| ∧
    0 ≤ (commitRegion p1 p2).width ∧
    0 ≤ (commitRegion p1 p2).height ∧
    (commitRegion p1 p1).width = 0 ∧
    (commitRegion p1 p1).height = 0 := by
  refine ⟨?_, rfl, rfl, rfl, rfl, abs_nonneg _, abs_nonneg _, ?_, ?_⟩
  · simp [commitRegion, RegionData.buildRectRegionData, min_comm, abs_sub_comm]
  · simp [commitRegion, RegionData.buildRectRegionData]
  · simp [commitRegion, RegionData.buildRectRegionData]

/-- C4 as stated is false: on ctrl-up mid-placement the code runs
`moveCross(this.crossA, this.crossB)`, so crossA moves onto crossB; crossB
keeps its position instead of taking crossA's. -/
theorem ctrlUp_collapse_counterexample :
    (mkDemoState ⟨5, 5⟩ ⟨25, 15⟩ true true).isTwoPoints = true ∧
    ¬ ((step cbBoth (mkDemoState ⟨5, 5⟩ ⟨25, 15⟩ true true)
          (SelectorEvent.keyUp false false)).1.crossB.pos = ⟨5, 5⟩) ∧
    (step cbBoth (mkDemoState ⟨5, 5⟩ ⟨25, 15⟩ true true)
        (SelectorEvent.keyUp false false)).1.crossA.pos = ⟨25, 15⟩ := by
  decide

/-- C4 amended: a ctrl-up received while isTwoPoints is true exits two-point
mode without emitting any output (in particular no onSelectionEnd), collapses
crossA onto crossB (crossA takes crossB's clamped position), hides crossB,
the selection box and the mask, and resets capturingState to false. -/
theorem ctrlUp_cancels (cb : ISelectorCallbacks) (s : RectSelectorState)
    (shiftKey : Bool) (h2p : s.isTwoPoints = true) :
    (step cb s (SelectorEvent.keyUp shiftKey false)).2 = [] ∧
    (step cb s (SelectorEvent.keyUp shiftKey false)).1.isTwoPoints = false ∧
    (step cb s (SelectorEvent.keyUp shiftKey false)).1.capturingState = false ∧
    (step cb s (SelectorEvent.keyUp shiftKey false)).1.crossA.pos =
      boundToRect s.boundRect s.crossB.pos ∧
    (step cb s (SelectorEvent.keyUp shiftKey false)).1.crossB.visible = false ∧
    (step cb s (SelectorEvent.keyUp shiftKey false)).1.selectionBox.visible = false ∧
    (step cb s (SelectorEvent.keyUp shiftKey false)).1.maskVisible = false := by
  cases shiftKey <;> simp [step, onKeyUp, h2p, moveCross]

/-- Witness for the amended C4 at a concrete mid-placement state. -/
theorem ctrlUp_cancels_witness :
    (mkDemoState ⟨5, 5⟩ ⟨25, 15⟩ true true).isTwoPoints = true ∧
    ((step cbBoth (mkDemoState ⟨5, 5⟩ ⟨25, 15⟩ true true)
        (SelectorEvent.keyUp false false)).2 = [] ∧
     (step cbBoth (mkDemoState ⟨5, 5⟩ ⟨25, 15⟩ true true)
        (SelectorEvent.keyUp false false)).1.isTwoPoints = false ∧
     (step cbBoth (mkDemoState ⟨5, 5⟩ ⟨25, 15⟩ true true)
        (SelectorEvent.keyUp false false)).1.capturingState = false ∧
     (step cbBoth (mkDemoState ⟨5, 5⟩ ⟨25, 15⟩ true true)
        (SelectorEvent.keyUp false false)).1.crossA.pos =
       boundToRect (mkDemoState ⟨5, 5⟩ ⟨25, 15⟩ true true).boundRect
         (mkDemoState ⟨5, 5⟩ ⟨25, 15⟩ true true).crossB.pos ∧
     (step cbBoth (mkDemoState ⟨5, 5⟩ ⟨25, 15⟩ true true)
        (SelectorEvent.keyUp false false)).1.crossB.visible = false ∧
     (step cbBoth (mkDemoState ⟨5, 5⟩ ⟨25, 15⟩ true true)
        (SelectorEvent.keyUp false false)).1.selectionBox.visible = false ∧
     (step cbBoth (mkDemoState ⟨5, 5⟩ ⟨25, 15⟩ true true)
        (SelectorEvent.keyUp false false)).1.maskVisible = false) :=
  ⟨rfl, ctrlUp_cancels cbBoth (mkDemoState ⟨5, 5⟩ ⟨25, 15⟩ true true) false rfl⟩

/-- C5 as stated is false: the one-point branch of `onPointerUp` has no
capturing check, so an up without a preceding down still invokes
onSelectionEnd, with the region built from the current (stale) crossA and
crossB positions. -/
theorem onePointUp_idle_counterexample :
    (mkDemoState ⟨3, 4⟩ ⟨8, 9⟩ false false).capturingState = false ∧
    (mkDemoState ⟨3, 4⟩ ⟨8, 9⟩ false false).isTwoPoints = false ∧
    committedRegions (step cbBoth (mkDemoState ⟨3, 4⟩ ⟨8, 9⟩ false false)
        (SelectorEvent.pointerUp ⟨20, 20⟩)).2 =
      [RegionData.buildRectRegionData 3 4 5 5] := by
  decide

/-- C5 amended: in one-point mode a pointer-up received while capturingState
is false still runs the full one-point up path: it keeps capturingState
false, emits releasePointerCapture, hides crossB and the mask, and invokes
onSelectionEnd once with the region built from the current crossA/crossB
positions. -/
theorem onePointUp_idle_commits (cb : ISelectorCallbacks)
    (s : RectSelectorState) (p : Point2D)
    (h2p : s.isTwoPoints = false) (_hcap : s.capturingState = false)
    (hend : cb.hasOnSelectionEnd = true) :
    step cb s (SelectorEvent.pointerUp p) =
      ({ s with capturingState := false,
                crossB := { s.crossB with visible := false },
                maskVisible := false },
       [SelectorOutput.releasePointerCapture,
        SelectorOutput.onSelectionEnd (commitRegion s.crossA.pos s.crossB.pos)]) := by
  simp [step, onPointerUp, h2p, hend]

/-- Witness for the amended C5 at a concrete idle state. -/
theorem onePointUp_idle_commits_witness :
    (mkDemoState ⟨3, 4⟩ ⟨8, 9⟩ false false).isTwoPoints = false ∧
    (mkDemoState ⟨3, 4⟩ ⟨8, 9⟩ false false).capturingState = false ∧
    step cbBoth (mkDemoState ⟨3, 4⟩ ⟨8, 9⟩ false false)
        (SelectorEvent.pointerUp ⟨20, 20⟩) =
      ({ mkDemoState ⟨3, 4⟩ ⟨8, 9⟩ false false with
          capturingState := false,
          crossB := { (mkDemoState ⟨3, 4⟩ ⟨8, 9⟩ false false).crossB with
            visible := false },
          maskVisible := false },
       [SelectorOutput.releasePointerCapture,
        SelectorOutput.onSelectionEnd
          (commitRegion (mkDemoState ⟨3, 4⟩ ⟨8, 9⟩ false false).crossA.pos
            (mkDemoState ⟨3, 4⟩ ⟨8, 9⟩ false false).crossB.pos)]) :=
  ⟨rfl, rfl,
    onePointUp_idle_commits cbBoth (mkDemoState ⟨3, 4⟩ ⟨8, 9⟩ false false)
      ⟨20, 20⟩ rfl rfl rfl⟩

/-- C10: while isTwoPoints is true the pointer-down handler is a complete
no-op (same state, no outputs); in two-point mode capture begins and
onSelectionBegin is emitted by the pointer-up handler when it arms. -/
theorem twoPoints_pointerDown_noop (cb : ISelectorCallbacks)
    (s : RectSelectorState) (p : Point2D) (h2p : s.isTwoPoints = true) :
    step cb s (SelectorEvent.pointerDown p) = (s, []) ∧
    (s.capturingState = false →
      (step cb s (SelectorEvent.pointerUp p)).1.capturingState = true ∧
      (step cb s (SelectorEvent.pointerUp p)).2 =
        (if cb.hasOnSelectionBegin then [SelectorOutput.onSelectionBegin]
         else [])) := by
  constructor
  · simp [step, onPointerDown, h2p]
  · intro hcap
    constructor
    · simp [step, onPointerUp, h2p, hcap]
    · simp [step, onPointerUp, h2p, hcap]

/-- Witness for C10 at a concrete two-point state that is mid-capture (the
down of the committing second click): the handler is a no-op there too. -/
theorem twoPoints_pointerDown_noop_witness :
    (mkDemoState ⟨5, 5⟩ ⟨20, 20⟩ true true).isTwoPoints = true ∧
    (step cbBoth (mkDemoState ⟨5, 5⟩ ⟨20, 20⟩ true true)
        (SelectorEvent.pointerDown ⟨20, 20⟩) =
      (mkDemoState ⟨5, 5⟩ ⟨20, 20⟩ true true, []) ∧
    ((mkDemoState ⟨5, 5⟩ ⟨20, 20⟩ true true).capturingState = false →
      (step cbBoth (mkDemoState ⟨5, 5⟩ ⟨20, 20⟩ true true)
          (SelectorEvent.pointerUp ⟨20, 20⟩)).1.capturingState = true ∧
      (step cbBoth (mkDemoState ⟨5, 5⟩ ⟨20, 20⟩ true true)
          (SelectorEvent.pointerUp ⟨20, 20⟩)).2 =
        (if cbBoth.hasOnSelectionBegin then [SelectorOutput.onSelectionBegin]
         else []))) :=
  ⟨rfl,
    twoPoints_pointerDown_noop cbBoth (mkDemoState ⟨5, 5⟩ ⟨20, 20⟩ true true)
      ⟨20, 20⟩ rfl⟩

/-- C8: at an asset with an out-of-bounds tagged region the export emits no
records and marks the asset NotVisited, but the clearing loop pops while
iterating and so leaves half of the regions in place: with two regions, one
region survives instead of the list being cleared to empty. -/
theorem csv_outOfBounds_pop_halves :
    (Csv.processAsset mdOob ⟨10, 10⟩).1 = [] ∧
    (Csv.processAsset mdOob ⟨10, 10⟩).2.asset.state = Csv.AssetState.NotVisited ∧
    (Csv.processAsset mdOob ⟨10, 10⟩).2.regions = [regOob] ∧
    ¬ ((Csv.processAsset mdOob ⟨10, 10⟩).2.regions = []) := by
  decide

/-- C1: in one-point mode, with the hover cross at (10,10) (the pointer-down
handler reads no event coordinates; crossA holds the cursor position from
hover tracking), the trace down, move to (50,40), up invokes onSelectionEnd
exactly once, with the region x=10, y=10, width=40, height=30 computed as
min-corner and componentwise absolute difference. -/
theorem onePoint_drag_commits (cb : ISelectorCallbacks) (s : RectSelectorState)
    (hend : cb.hasOnSelectionEnd = true)
    (h2p : s.isTwoPoints = false) (hcap : s.capturingState = false)
    (hmod : s.selectionModificator = SelectionModificator.RECT)
    (hA : s.crossA.pos = ⟨10, 10⟩)
    (hw : 50 ≤ s.boundRect.width) (hh : 40 ≤ s.boundRect.height) :
    committedRegions (run cb s
      [SelectorEvent.pointerDown ⟨10, 10⟩, SelectorEvent.pointerMove ⟨50, 40⟩,
       SelectorEvent.pointerUp ⟨50, 40⟩]).2 =
      [RegionData.buildRectRegionData 10 10 40 30] := by
  obtain ⟨⟨w, h⟩, ⟨apos, avis⟩, ⟨bpos, bvis⟩, box, mv, sv, cap, twoP, mod⟩ := s
  simp only at h2p hcap hmod hA hw hh
  subst h2p hcap hmod hA
  have e1 : boundToRect ⟨w, h⟩ ⟨10, 10⟩ = ⟨10, 10⟩ :=
    boundToRect_of_mem _ _ (by norm_num) (by simp; omega) (by norm_num)
      (by simp; omega)
  have e2 : boundToRect ⟨w, h⟩ ⟨50, 40⟩ = ⟨50, 40⟩ :=
    boundToRect_of_mem _ _ (by norm_num) (by simp; omega) (by norm_num)
      (by simp; omega)
  simp [run, step, onPointerDown, onPointerMove, onPointerUp, moveCross,
    moveSelectionBox, commitRegion, RegionData.buildRectRegionData,
    committedRegions, e1, e2, hend]

/-- Witness for C1 at a concrete idle state with crossA at (10,10). -/
theorem onePoint_drag_commits_witness :
    cbBoth.hasOnSelectionEnd = true ∧
    (50 ≤ (mkDemoState ⟨10, 10⟩ ⟨0, 0⟩ false false).boundRect.width) ∧
    committedRegions (run cbBoth (mkDemoState ⟨10, 10⟩ ⟨0, 0⟩ false false)
      [SelectorEvent.pointerDown ⟨10, 10⟩, SelectorEvent.pointerMove ⟨50, 40⟩,
       SelectorEvent.pointerUp ⟨50, 40⟩]).2 =
      [RegionData.buildRectRegionData 10 10 40 30] :=
  ⟨rfl, by decide,
    onePoint_drag_commits cbBoth (mkDemoState ⟨10, 10⟩ ⟨0, 0⟩ false false)
      rfl rfl rfl rfl rfl (by decide) (by decide)⟩

/-- C3: two-point mode entered by ctrl-down while not capturing; moving to
(5,5) and clicking arms, moving to (25,15) and clicking commits the region
x=5, y=5, width=20, height=10 through onSelectionEnd exactly once; right
after the commit both crosses sit at (25,15) and two-point mode is still
active.  (A click is modelled as pointer-move to the point, pointer-down —
a no-op in two-point mode — then pointer-up.) -/
theorem twoPoint_clicks_commit (cb : ISelectorCallbacks) (s : RectSelectorState)
    (hend : cb.hasOnSelectionEnd = true)
    (h2p : s.isTwoPoints = false) (hcap : s.capturingState = false)
    (hmod : s.selectionModificator = SelectionModificator.RECT)
    (hw : 25 ≤ s.boundRect.width) (hh : 15 ≤ s.boundRect.height) :
    committedRegions (run cb s
      [SelectorEvent.keyDown false true,
       SelectorEvent.pointerMove ⟨5, 5⟩, SelectorEvent.pointerDown ⟨5, 5⟩,
       SelectorEvent.pointerUp ⟨5, 5⟩,
       SelectorEvent.pointerMove ⟨25, 15⟩, SelectorEvent.pointerDown ⟨25, 15⟩,
       SelectorEvent.pointerUp ⟨25, 15⟩]).2 =
      [RegionData.buildRectRegionData 5 5 20 10] ∧
    (run cb s
      [SelectorEvent.keyDown false true,
       SelectorEvent.pointerMove ⟨5, 5⟩, SelectorEvent.pointerDown ⟨5, 5⟩,
       SelectorEvent.pointerUp ⟨5, 5⟩,
       SelectorEvent.pointerMove ⟨25, 15⟩, SelectorEvent.pointerDown ⟨25, 15⟩,
       SelectorEvent.pointerUp ⟨25, 15⟩]).1.crossA.pos = ⟨25, 15⟩ ∧
    (run cb s
      [SelectorEvent.keyDown false true,
       SelectorEvent.pointerMove ⟨5, 5⟩, SelectorEvent.pointerDown ⟨5, 5⟩,
       SelectorEvent.pointerUp ⟨5, 5⟩,
       SelectorEvent.pointerMove ⟨25, 15⟩, SelectorEvent.pointerDown ⟨25, 15⟩,
       SelectorEvent.pointerUp ⟨25, 15⟩]).1.crossB.pos = ⟨25, 15⟩ ∧
    (run cb s
      [SelectorEvent.keyDown false true,
       SelectorEvent.pointerMove ⟨5, 5⟩, SelectorEvent.pointerDown ⟨5, 5⟩,
       SelectorEvent.pointerUp ⟨5, 5⟩,
       SelectorEvent.pointerMove ⟨25, 15⟩, SelectorEvent.pointerDown ⟨25, 15⟩,
       SelectorEvent.pointerUp ⟨25, 15⟩]).1.isTwoPoints = true := by
  obtain ⟨⟨w, h⟩, ⟨apos, avis⟩, ⟨bpos, bvis⟩, box, mv, sv, cap, twoP, mod⟩ := s
  simp only at h2p hcap hmod hw hh
  subst h2p hcap hmod
  have e1 : boundToRect ⟨w, h⟩ ⟨5, 5⟩ = ⟨5, 5⟩ :=
    boundToRect_of_mem _ _ (by norm_num) (by simp; omega) (by norm_num)
      (by simp; omega)
  have e2 : boundToRect ⟨w, h⟩ ⟨25, 15⟩ = ⟨25, 15⟩ :=
    boundToRect_of_mem _ _ (by norm_num) (by simp; omega) (by norm_num)
      (by simp; omega)
  simp [run, step, onKeyDown, onPointerDown, onPointerMove, onPointerUp,
    moveCross, moveSelectionBox, commitRegion, RegionData.buildRectRegionData,
    committedRegions, e1, e2, hend]

/-- Witness for C3 at a concrete idle state. -/
theorem twoPoint_clicks_commit_witness :
    cbBoth.hasOnSelectionEnd = true ∧
    (committedRegions (run cbBoth (mkDemoState ⟨0, 0⟩ ⟨0, 0⟩ false false)
      [SelectorEvent.keyDown false true,
       SelectorEvent.pointerMove ⟨5, 5⟩, SelectorEvent.pointerDown ⟨5, 5⟩,
       SelectorEvent.pointerUp ⟨5, 5⟩,
       SelectorEvent.pointerMove ⟨25, 15⟩, SelectorEvent.pointerDown ⟨25, 15⟩,
       SelectorEvent.pointerUp ⟨25, 15⟩]).2 =
      [RegionData.buildRectRegionData 5 5 20 10] ∧
    (run cbBoth (mkDemoState ⟨0, 0⟩ ⟨0, 0⟩ false false)
      [SelectorEvent.keyDown false true,
       SelectorEvent.pointerMove ⟨5, 5⟩, SelectorEvent.pointerDown ⟨5, 5⟩,
       SelectorEvent.pointerUp ⟨5, 5⟩,
       SelectorEvent.pointerMove ⟨25, 15⟩, SelectorEvent.pointerDown ⟨25, 15⟩,
       SelectorEvent.pointerUp ⟨25, 15⟩]).1.crossA.pos = ⟨25, 15⟩ ∧
    (run cbBoth (mkDemoState ⟨0, 0⟩ ⟨0, 0⟩ false false)
      [SelectorEvent.keyDown false true,
       SelectorEvent.pointerMove ⟨5, 5⟩, SelectorEvent.pointerDown ⟨5, 5⟩,
       SelectorEvent.pointerUp ⟨5, 5⟩,
       SelectorEvent.pointerMove ⟨25, 15⟩, SelectorEvent.pointerDown ⟨25, 15⟩,
       SelectorEvent.pointerUp ⟨25, 15⟩]).1.crossB.pos = ⟨25, 15⟩ ∧
    (run cbBoth (mkDemoState ⟨0, 0⟩ ⟨0, 0⟩ false false)
      [SelectorEvent.keyDown false true,
       SelectorEvent.pointerMove ⟨5, 5⟩, SelectorEvent.pointerDown ⟨5, 5⟩,
       SelectorEvent.pointerUp ⟨5, 5⟩,
       SelectorEvent.pointerMove ⟨25, 15⟩, SelectorEvent.pointerDown ⟨25, 15⟩,
       SelectorEvent.pointerUp ⟨25, 15⟩]).1.isTwoPoints = true) :=
  ⟨rfl, twoPoint_clicks_commit cbBoth (mkDemoState ⟨0, 0⟩ ⟨0, 0⟩ false false)
    rfl rfl rfl rfl (by decide) (by decide)⟩

/-- C6: hide() called mid-capture leaves no visual element on screen and
resets capturingState to false, and show() followed by pointer-down then
starts a clean capture: capturing set, crossB snapped onto crossA, selection
box zero-sized, mask/crossB/selectionBox on screen, pointer capture acquired
and onSelectionBegin invoked. -/
theorem hide_midCapture_clean (cb : ISelectorCallbacks) (s : RectSelectorState)
    (p : Point2D)
    (hcap : s.capturingState = true) (h2p : s.isTwoPoints = false)
    (hbegin : cb.hasOnSelectionBegin = true)
    (hx0 : 0 ≤ s.crossA.pos.x) (hxw : s.crossA.pos.x ≤ s.boundRect.width)
    (hy0 : 0 ≤ s.crossA.pos.y) (hyh : s.crossA.pos.y ≤ s.boundRect.height) :
    s.hide.anyVisualOnScreen = false ∧
    s.hide.capturingState = false ∧
    (step cb s.hide.showSelector (SelectorEvent.pointerDown p)).1.capturingState = true ∧
    (step cb s.hide.showSelector (SelectorEvent.pointerDown p)).1.crossB.pos = s.crossA.pos ∧
    (step cb s.hide.showSelector (SelectorEvent.pointerDown p)).1.selectionBox.width = 0 ∧
    (step cb s.hide.showSelector (SelectorEvent.pointerDown p)).1.selectionBox.height = 0 ∧
    (step cb s.hide.showSelector (SelectorEvent.pointerDown p)).1.crossBOnScreen = true ∧
    (step cb s.hide.showSelector (SelectorEvent.pointerDown p)).1.selectionBoxOnScreen = true ∧
    (step cb s.hide.showSelector (SelectorEvent.pointerDown p)).1.maskOnScreen = true ∧
    (step cb s.hide.showSelector (SelectorEvent.pointerDown p)).2 =
      [SelectorOutput.setPointerCapture, SelectorOutput.onSelectionBegin] := by
  obtain ⟨⟨w, h⟩, ⟨apos, avis⟩, ⟨bpos, bvis⟩, box, mv, sv, cap, twoP, mod⟩ := s
  simp only at hcap h2p hx0 hxw hy0 hyh
  subst hcap h2p
  have e1 : boundToRect ⟨w, h⟩ apos = apos :=
    boundToRect_of_mem _ _ hx0 hxw hy0 hyh
  simp [RectSelectorState.hide, showSelector, selectorBaseHide,
    selectorBaseShow, anyVisualOnScreen, crossAOnScreen, crossBOnScreen,
    selectionBoxOnScreen, maskOnScreen, step, onPointerDown, moveCross,
    moveSelectionBox, e1, hbegin]

/-- Witness for C6 at a concrete mid-capture state. -/
theorem hide_midCapture_clean_witness :
    (mkDemoState ⟨10, 10⟩ ⟨20, 20⟩ true false).capturingState = true ∧
    ((mkDemoState ⟨10, 10⟩ ⟨20, 20⟩ true false).hide.anyVisualOnScreen = false ∧
    (mkDemoState ⟨10, 10⟩ ⟨20, 20⟩ true false).hide.capturingState = false ∧
    (step cbBoth (mkDemoState ⟨10, 10⟩ ⟨20, 20⟩ true false).hide.showSelector
      (SelectorEvent.pointerDown ⟨30, 30⟩)).1.capturingState = true ∧
    (step cbBoth (mkDemoState ⟨10, 10⟩ ⟨20, 20⟩ true false).hide.showSelector
      (SelectorEvent.pointerDown ⟨30, 30⟩)).1.crossB.pos =
      (mkDemoState ⟨10, 10⟩ ⟨20, 20⟩ true false).crossA.pos ∧
    (step cbBoth (mkDemoState ⟨10, 10⟩ ⟨20, 20⟩ true false).hide.showSelector
      (SelectorEvent.pointerDown ⟨30, 30⟩)).1.selectionBox.width = 0 ∧
    (step cbBoth (mkDemoState ⟨10, 10⟩ ⟨20, 20⟩ true false).hide.showSelector
      (SelectorEvent.pointerDown ⟨30, 30⟩)).1.selectionBox.height = 0 ∧
    (step cbBoth (mkDemoState ⟨10, 10⟩ ⟨20, 20⟩ true false).hide.showSelector
      (SelectorEvent.pointerDown ⟨30, 30⟩)).1.crossBOnScreen = true ∧
    (step cbBoth (mkDemoState ⟨10, 10⟩ ⟨20, 20⟩ true false).hide.showSelector
      (SelectorEvent.pointerDown ⟨30, 30⟩)).1.selectionBoxOnScreen = true ∧
    (step cbBoth (mkDemoState ⟨10, 10⟩ ⟨20, 20⟩ true false).hide.showSelector
      (SelectorEvent.pointerDown ⟨30, 30⟩)).1.maskOnScreen = true ∧
    (step cbBoth (mkDemoState ⟨10, 10⟩ ⟨20, 20⟩ true false).hide.showSelector
      (SelectorEvent.pointerDown ⟨30, 30⟩)).2 =
      [SelectorOutput.setPointerCapture, SelectorOutput.onSelectionBegin]) :=
  ⟨rfl, hide_midCapture_clean cbBoth (mkDemoState ⟨10, 10⟩ ⟨20, 20⟩ true false)
    ⟨30, 30⟩ rfl rfl rfl (by decide) (by decide) (by decide) (by decide)⟩

/-- C7: across any one-point trace pointer-down, N pointer-moves,
pointer-up, setPointerCapture and releasePointerCapture are each emitted
exactly once: one release per acquire, no unmatched acquire or release. -/
theorem capture_release_balanced (cb : ISelectorCallbacks)
    (s : RectSelectorState) (h2p : s.isTwoPoints = false)
    (pd pu : Point2D) (moves : List Point2D) :
    ((run cb s (SelectorEvent.pointerDown pd ::
        (moves.map SelectorEvent.pointerMove ++
          [SelectorEvent.pointerUp pu]))).2.count
      SelectorOutput.setPointerCapture = 1) ∧
    ((run cb s (SelectorEvent.pointerDown pd ::
        (moves.map SelectorEvent.pointerMove ++
          [SelectorEvent.pointerUp pu]))).2.count
      SelectorOutput.releasePointerCapture = 1) := by
  have hstep : step cb s (SelectorEvent.pointerDown pd) = onPointerDown cb s := rfl
  have hd2 : (onPointerDown cb s).1.isTwoPoints = false := by
    rw [onPointerDown_fst_isTwoPoints]; exact h2p
  have hdo : (onPointerDown cb s).2 =
      SelectorOutput.setPointerCapture ::
        (if cb.hasOnSelectionBegin then [SelectorOutput.onSelectionBegin]
         else []) := by
    simp [onPointerDown, h2p]
  have happ := run_append cb (onPointerDown cb s).1
    (moves.map SelectorEvent.pointerMove) [SelectorEvent.pointerUp pu]
  have hmv := run_moves_trace cb (onPointerDown cb s).1 moves
  have h2pu : (run cb (onPointerDown cb s).1
      (moves.map SelectorEvent.pointerMove)).1.isTwoPoints = false := by
    rw [hmv.2]; exact hd2
  have huo : (onPointerUp cb (run cb (onPointerDown cb s).1
        (moves.map SelectorEvent.pointerMove)).1 pu).2 =
      SelectorOutput.releasePointerCapture ::
        (if cb.hasOnSelectionEnd then
          [SelectorOutput.onSelectionEnd
            (commitRegion (run cb (onPointerDown cb s).1
                (moves.map SelectorEvent.pointerMove)).1.crossA.pos
              (run cb (onPointerDown cb s).1
                (moves.map SelectorEvent.pointerMove)).1.crossB.pos)]
         else []) := by
    simp [onPointerUp, h2pu]
  have hup : step cb (run cb (onPointerDown cb s).1
        (moves.map SelectorEvent.pointerMove)).1 (SelectorEvent.pointerUp pu) =
      onPointerUp cb (run cb (onPointerDown cb s).1
        (moves.map SelectorEvent.pointerMove)).1 pu := rfl
  simp [run, hstep, hdo, happ, hmv.1, hup, huo, List.count_append,
    List.count_cons]
  cases cb.hasOnSelectionBegin <;> cases cb.hasOnSelectionEnd <;>
    simp [List.count_cons]

/-- Witness for C7 on a concrete trace with one intervening move. -/
theorem capture_release_balanced_witness :
    (mkDemoState ⟨10, 10⟩ ⟨0, 0⟩ false false).isTwoPoints = false ∧
    (((run cbBoth (mkDemoState ⟨10, 10⟩ ⟨0, 0⟩ false false)
        (SelectorEvent.pointerDown ⟨10, 10⟩ ::
          (([⟨50, 40⟩] : List Point2D).map SelectorEvent.pointerMove ++
            [SelectorEvent.pointerUp ⟨50, 40⟩]))).2.count
      SelectorOutput.setPointerCapture = 1) ∧
    ((run cbBoth (mkDemoState ⟨10, 10⟩ ⟨0, 0⟩ false false)
        (SelectorEvent.pointerDown ⟨10, 10⟩ ::
          (([⟨50, 40⟩] : List Point2D).map SelectorEvent.pointerMove ++
            [SelectorEvent.pointerUp ⟨50, 40⟩]))).2.count
      SelectorOutput.releasePointerCapture = 1)) :=
  ⟨rfl, capture_release_balanced cbBoth
    (mkDemoState ⟨10, 10⟩ ⟨0, 0⟩ false false) rfl ⟨10, 10⟩ ⟨50, 40⟩
    [⟨50, 40⟩]⟩

/-- C9: a region with an empty tags list is never tested against the
measured dimensions (the check iterates over tags), so an asset whose
regions all have empty tags is never skipped for out-of-bounds geometry and
contributes no CSV records; in general the records are one per region-tag
pair with xmax = xmin + width and ymax = ymin + height. -/
theorem csv_emptyTags_not_skipped (md md2 : Csv.AssetMetadata)
    (props : Csv.Size) (r : Csv.CsvRecord)
    (hTags : ∀ reg ∈ md.regions, reg.tags = [])
    (hw : md.asset.size.width = props.width)
    (hh : md.asset.size.height = props.height)
    (hr : r ∈ Csv.assetDataItems md2) :
    Csv.skipAssetCheck props md.regions = false ∧
    Csv.assetDataItems md = [] ∧
    Csv.processAsset md props = ([], md) ∧
    (Csv.assetDataItems md2).length =
      (md2.regions.map fun reg => reg.tags.length).sum ∧
    ∃ reg ∈ md2.regions, ∃ tag ∈ reg.tags,
      r = Csv.mkDataItem md2.asset.name reg tag ∧
      r.xmax = r.xmin + reg.boundingBox.width ∧
      r.ymax = r.ymin + reg.boundingBox.height := by
  have h1 : Csv.skipAssetCheck props md.regions = false := by
    simp only [Csv.skipAssetCheck, List.any_eq_false]
    intro reg hreg
    rw [hTags reg hreg]
    simp
  have h2 : Csv.assetDataItems md = [] := by
    simp only [Csv.assetDataItems, List.flatMap_eq_nil_iff]
    intro reg hreg
    rw [hTags reg hreg]
    simp
  refine ⟨h1, h2, by simp [Csv.processAsset, h1, hw, hh, h2], ?_, ?_⟩
  · simp only [Csv.assetDataItems, List.length_flatMap]
    congr 1
    simp [Function.comp]
  · simp only [Csv.assetDataItems, List.mem_flatMap, List.mem_map] at hr
    obtain ⟨reg, hreg, tag, htag, hrt⟩ := hr
    exact ⟨reg, hreg, tag, htag, hrt.symm,
      by rw [← hrt]; simp [Csv.mkDataItem],
      by rw [← hrt]; simp [Csv.mkDataItem]⟩

/-- Witness for C9: an asset whose regions have empty tags together with a
record of the out-of-bounds fixture asset. -/
theorem csv_emptyTags_not_skipped_witness :
    (∀ reg ∈ mdNoTags.regions, reg.tags = []) ∧
    (Csv.mkDataItem "a" regOob "t" ∈ Csv.assetDataItems mdOob) ∧
    (Csv.skipAssetCheck ⟨10, 10⟩ mdNoTags.regions = false ∧
    Csv.assetDataItems mdNoTags = [] ∧
    Csv.processAsset mdNoTags ⟨10, 10⟩ = ([], mdNoTags) ∧
    (Csv.assetDataItems mdOob).length =
      (mdOob.regions.map fun reg => reg.tags.length).sum ∧
    ∃ reg ∈ mdOob.regions, ∃ tag ∈ reg.tags,
      Csv.mkDataItem "a" regOob "t" = Csv.mkDataItem mdOob.asset.name reg tag ∧
      (Csv.mkDataItem "a" regOob "t").xmax =
        (Csv.mkDataItem "a" regOob "t").xmin + reg.boundingBox.width ∧
      (Csv.mkDataItem "a" regOob "t").ymax =
        (Csv.mkDataItem "a" regOob "t").ymin + reg.boundingBox.height) :=
  ⟨by decide, by decide,
    csv_emptyTags_not_skipped mdNoTags mdOob ⟨10, 10⟩
      (Csv.mkDataItem "a" regOob "t") (by decide) rfl rfl (by decide)⟩

end VoTT
